import Mathlib

/-!
Verified model of the core pipeline of the visual query builder:
`query_builder/query_analyzer.py` (class `QueryAnalyzer`) and
`query_builder/performance_predictor.py` (class `PerformancePredictor`).

Conventions of the shallow embedding:

* Python strings are `List Char`.  `str.lower()` is modelled for the ASCII
  range (every character appearing in the analysed constructs is ASCII).
* Python floats are modelled as exact rationals `ℚ`; `round(x, 2)` is
  Python's banker rounding, applied to the exact rational value.
* The external libraries are modelled at their interface:
  - `sqlparse.parse(sql)` yields no statement on the empty string (so the
    subscript `[0]` in `analyze_query` raises `IndexError`, modelled as
    `none`) and at least one statement on any non-empty string; the
    analyzer only ever looks at `str(parsed)`, the verbatim text of the
    first statement, which for a single-statement input is the input
    itself.
  - `numpy`'s seeded random draws are a deterministic stream; we model the
    stream reached after `np.random.seed(42)` as an arbitrary but fixed
    family of per-iteration draw functions (`NumpyRNG`).  All theorems
    hold for every such stream, in particular for numpy's.
  - `sklearn`'s fitted `StandardScaler.transform` and
    `RandomForestRegressor.predict` are abstracted as functions of the
    data they were fitted on (`SklearnEnv`); the claims about the
    predictor depend only on the clamping and control flow around them,
    which the source performs itself.
-/

/-! ## Python string primitives -/

/-- Model of `str.lower()` on one ASCII character. -/
def lowerChar (c : Char) : Char :=
  if 'A' ≤ c ∧ c ≤ 'Z' then Char.ofNat (c.toNat + 32) else c

/-- Model of `str.lower()`: `sql.lower()` in the source. -/
def lowerStr (s : List Char) : List Char := s.map lowerChar

/-- Characters matched by the regex class `\w` (ASCII range): letters,
digits and underscore.  Used for the word boundaries `\b` of the regexes
in `query_analyzer.py`. -/
def isWordChar (c : Char) : Bool :=
  ('a' ≤ c ∧ c ≤ 'z') ∨ ('A' ≤ c ∧ c ≤ 'Z') ∨ ('0' ≤ c ∧ c ≤ '9') ∨ c = '_'

/-- Model of Python `pat in s` (substring containment, nonempty `pat`). -/
def containsSub (pat : List Char) : List Char → Bool
  | [] => pat.isPrefixOf []
  | c :: rest => pat.isPrefixOf (c :: rest) || containsSub pat rest

/-- Model of `str.count(pat)`: number of non-overlapping occurrences of
`pat`, scanning left to right and skipping the whole match.  The `fuel`
argument (instantiated with the length of the string) makes the recursion
structural, hence kernel-computable. -/
def countSubstrAux (pat : List Char) : Nat → List Char → Nat
  | _, [] => 0
  | 0, _ => 0
  | fuel + 1, c :: rest =>
      if pat.isPrefixOf (c :: rest) then
        1 + countSubstrAux pat fuel ((c :: rest).drop pat.length)
      else
        countSubstrAux pat fuel rest

/-- Model of `str.count(pat)` for a nonempty pattern. -/
def countSubstr (pat s : List Char) : Nat := countSubstrAux pat s.length s

/-- One attempted match of the regex `\bw\b` at the current position,
where `w` consists of word characters: the previous character (if any)
must not be a word character, `w` must occur here, and the following
character (if any) must not be a word character. -/
def boundMatchAt (w : List Char) (prev : Option Char) (s : List Char) : Bool :=
  (match prev with | none => true | some c => !isWordChar c) &&
  w.isPrefixOf s &&
  (match s.drop w.length with | [] => true | c :: _ => !isWordChar c)

/-- Number of positions at which some word of `ws` matches with word
boundaries on both sides.  This models `len(re.findall(...))` for the
word-boundary regexes of the source: since every match is flanked by
non-word characters while its interior is word characters, two matches can
never overlap, so counting every matching position agrees with
`re.findall`'s non-overlapping left-to-right scan. -/
def countBoundAux (ws : List (List Char)) (prev : Option Char) : List Char → Nat
  | [] => 0
  | c :: rest =>
      (if ws.any (fun w => boundMatchAt w prev (c :: rest)) then 1 else 0) +
      countBoundAux ws (some c) rest

/-- `len(re.findall(r"\bjoin\b", s))`-style count for a single word. -/
def countWordBound (w : List Char) (s : List Char) : Nat :=
  countBoundAux [w] none s

/-- The alternation `count|sum|avg|max|min` of the aggregate regex. -/
def aggWords : List (List Char) :=
  ["count".data, "sum".data, "avg".data, "max".data, "min".data]

/-- `len(re.findall(r"\b(count|sum|avg|max|min)\b", s))`. -/
def countAggBound (s : List Char) : Nat := countBoundAux aggWords none s

/-! ## Python numeric primitives -/

/-- Round a rational to the nearest integer, ties to even: the rounding
mode of Python's builtin `round`. -/
def pyRoundHalfEven (x : ℚ) : ℤ :=
  let n := ⌊x⌋
  let r := x - n
  if r < 1/2 then n
  else if 1/2 < r then n + 1
  else if n % 2 = 0 then n else n + 1

/-- Model of Python `round(x, 2)` on the exact rational value. -/
def pyRound2 (x : ℚ) : ℚ := (pyRoundHalfEven (x * 100) : ℚ) / 100

/-- Model of Python `int(x)`: truncation toward zero. -/
def pyInt (x : ℚ) : ℤ := if 0 ≤ x then ⌊x⌋ else -⌊-x⌋

/-! ## QueryAnalyzer (`query_builder/query_analyzer.py`) -/

/-- The analysis record built by `QueryAnalyzer.analyze_query`. -/
structure QueryAnalysis where
  complexity_score : ℚ
  operations : List (List Char)
  tables : List (List Char)
  joins : Nat
  subqueries : Nat
  aggregations : Nat
  estimated_rows : ℤ
  optimization_suggestions : List (List Char)
deriving DecidableEq

/-- The dictionary `self.performance_weights` of `QueryAnalyzer.__init__`,
in insertion order (Python dicts iterate in insertion order). -/
def performance_weights : List (List Char × ℚ) :=
  [("select".data, 1), ("join".data, 5/2), ("where".data, 6/5),
   ("group_by".data, 2), ("order_by".data, 3/2), ("subquery".data, 3),
   ("aggregate".data, 11/5)]

/-- `operation.replace("_", " ")`. -/
def underscoreToSpace (s : List Char) : List Char :=
  s.map (fun c => if c = '_' then ' ' else c)

/-- The per-construct count of the loop body of
`QueryAnalyzer._calculate_complexity`: word-boundary regex for `join`,
literal `"(select"` for `subquery`, word-boundary alternation for
`aggregate`, and the literal substring with underscores replaced by
spaces for every other construct.  `sql_lower` is the lower-cased text. -/
def operationCount (operation sql_lower : List Char) : Nat :=
  if operation = "join".data then countWordBound "join".data sql_lower
  else if operation = "subquery".data then countSubstr "(select".data sql_lower
  else if operation = "aggregate".data then countAggBound sql_lower
  else countSubstr (underscoreToSpace operation) sql_lower

/-- `QueryAnalyzer._calculate_complexity`: start from 1.0, add
`count * weight` for each entry of the weight table, and round the result
to two decimal places. -/
def calculate_complexity (sql : List Char) : ℚ :=
  let sql_lower := lowerStr sql
  pyRound2 (performance_weights.foldl
    (fun score ow => score + (operationCount ow.1 sql_lower : ℚ) * ow.2) 1)

/-- `QueryAnalyzer._extract_operations`: membership tests for the clause
keywords, in the fixed source order. -/
def extract_operations (sql : List Char) : List (List Char) :=
  let sql_lower := lowerStr sql
  (if containsSub "select".data sql_lower then ["SELECT".data] else []) ++
  (if containsSub "join".data sql_lower then ["JOIN".data] else []) ++
  (if containsSub "where".data sql_lower then ["WHERE".data] else []) ++
  (if containsSub "group by".data sql_lower then ["GROUP BY".data] else []) ++
  (if containsSub "order by".data sql_lower then ["ORDER BY".data] else []) ++
  (if containsSub "having".data sql_lower then ["HAVING".data] else [])

/-- Characters matched by the regex class `\s`. -/
def isSpaceChar (c : Char) : Bool :=
  c = ' ' || c = '\t' || c = '\n' || c = '\x0d' || c = '\x0c' || c = '\x0b'

/-- Longest prefix of `s` consisting of characters satisfying `p`
together with the remaining suffix (maximal munch of `\s+` / `\w+`). -/
def takeWhileSplit (p : Char → Bool) : List Char → List Char × List Char
  | [] => ([], [])
  | c :: rest =>
      if p c then
        let (tk, rem) := takeWhileSplit p rest
        (c :: tk, rem)
      else ([], c :: rest)

/-- Try to match the regex `kw\s+(\w+)` at the current position: the
literal keyword, then at least one whitespace character, then the maximal
nonempty run of word characters (the capture).  Returns the capture and
the suffix after the whole match. -/
def keywordCaptureAt (kw s : List Char) : Option (List Char × List Char) :=
  if kw.isPrefixOf s then
    let afterKw := s.drop kw.length
    let (ws, rem) := takeWhileSplit isSpaceChar afterKw
    if ws = [] then none
    else
      let (word, rem2) := takeWhileSplit isWordChar rem
      if word = [] then none else some (word, rem2)
  else none

/-- All captures of `re.findall(kw + "\s+(\w+)", s)`: scan left to right,
skipping the whole match after a success.  `fuel` (instantiated with the
length of `s`) makes the recursion structural. -/
def findCapturesAux (kw : List Char) : Nat → List Char → List (List Char)
  | _, [] => []
  | 0, _ => []
  | fuel + 1, c :: rest =>
      match keywordCaptureAt kw (c :: rest) with
      | some (word, rem) => word :: findCapturesAux kw fuel rem
      | none => findCapturesAux kw fuel rest

/-- `re.findall(kw + "\s+(\w+)", s)`. -/
def findCaptures (kw s : List Char) : List (List Char) :=
  findCapturesAux kw s.length s

/-- `QueryAnalyzer._extract_tables`: the first capture of
`from\s+(\w+)` (if any), then every capture of `join\s+(\w+)`, with
duplicates collapsed.  Python's `list(set(tables))` returns the distinct
names in an unspecified order; we model it as first-occurrence
deduplication (no claim depends on the order). -/
def extract_tables (sql : List Char) : List (List Char) :=
  let sql_lower := lowerStr sql
  let fromTables := (findCaptures "from".data sql_lower).take 1
  let joinTables := findCaptures "join".data sql_lower
  (fromTables ++ joinTables).dedup

/-- `QueryAnalyzer._count_joins`: `len(re.findall(r"\bjoin\b", lower))`. -/
def count_joins (sql : List Char) : Nat :=
  countWordBound "join".data (lowerStr sql)

/-- `QueryAnalyzer._count_subqueries`: `lower.count("(select")`. -/
def count_subqueries (sql : List Char) : Nat :=
  countSubstr "(select".data (lowerStr sql)

/-- `QueryAnalyzer._count_aggregations`:
`len(re.findall(r"\b(count|sum|avg|max|min)\b", lower))`. -/
def count_aggregations (sql : List Char) : Nat :=
  countAggBound (lowerStr sql)

/-- `QueryAnalyzer._estimate_rows`: `int(1000 * complexity)`. -/
def estimate_rows (sql : List Char) : ℤ :=
  pyInt (1000 * calculate_complexity sql)

/-- The four advisory strings of `QueryAnalyzer._generate_suggestions`. -/
def sugJoins : List Char :=
  "Consider breaking complex joins into smaller queries".data

def sugSubqueries : List Char :=
  "Review subqueries - consider using JOINs instead".data

def sugComplexity : List Char :=
  "High complexity query - consider indexing key columns".data

def sugGroupBy : List Char :=
  "Add GROUP BY clause when using aggregate functions".data

/-- `QueryAnalyzer._generate_suggestions`: four independent threshold
rules applied in the fixed source order, every matching suggestion
appended. -/
def generate_suggestions (analysis : QueryAnalysis) : List (List Char) :=
  (if 3 < analysis.joins then [sugJoins] else []) ++
  (if 2 < analysis.subqueries then [sugSubqueries] else []) ++
  (if 10 < analysis.complexity_score then [sugComplexity] else []) ++
  (if 0 < analysis.aggregations ∧
      "GROUP BY".data ∉ analysis.operations then [sugGroupBy] else [])

/-- The dictionary `analysis` of `QueryAnalyzer.analyze_query` as first
built, with `optimization_suggestions` still the empty list. -/
def analysisBase (parsed : List Char) : QueryAnalysis :=
  { complexity_score := calculate_complexity parsed
    operations := extract_operations parsed
    tables := extract_tables parsed
    joins := count_joins parsed
    subqueries := count_subqueries parsed
    aggregations := count_aggregations parsed
    estimated_rows := estimate_rows parsed
    optimization_suggestions := [] }

/-- The record built by `QueryAnalyzer.analyze_query` from the text of
the parsed statement: the base record, with `optimization_suggestions`
then filled in from its fields as the source does. -/
def mkAnalysis (parsed : List Char) : QueryAnalysis :=
  { analysisBase parsed with
    optimization_suggestions := generate_suggestions (analysisBase parsed) }

/-- Model of `sqlparse.parse(sql)[0]`: the empty string parses to no
statements, so the subscript raises `IndexError` (modelled as `none`); a
non-empty string parses to at least one statement, and the analyzer only
uses `str(parsed)`, the verbatim text of the first statement (the input
itself for a single-statement input). -/
def sqlparseFirst (sql : List Char) : Option (List Char) :=
  if sql = [] then none else some sql

/-- `QueryAnalyzer.analyze_query`: parse, then build the analysis record;
`none` models the `IndexError` escaping when the parse yields no
statement. -/
def analyze_query (sql : List Char) : Option QueryAnalysis :=
  (sqlparseFirst sql).map mkAnalysis

/-! ## PerformancePredictor (`query_builder/performance_predictor.py`) -/

/-- The analysis dictionary shape consumed by
`PerformancePredictor.extract_features`: exactly the six keys it reads.
Both the analyzer's output and the synthetic samples provide them. -/
structure AnalysisLike where
  complexity_score : ℚ
  joins : Nat
  subqueries : Nat
  aggregations : Nat
  tables : List (List Char)
  estimated_rows : ℤ

/-- A training sample: `{"analysis": ..., "execution_time": ...}`. -/
structure Sample where
  analysis : AnalysisLike
  execution_time : ℚ

/-- `PerformancePredictor.extract_features`: the fixed six-dimensional
feature vector, in source order. -/
def extract_features (a : AnalysisLike) : List ℚ :=
  [a.complexity_score, (a.joins : ℚ), (a.subqueries : ℚ),
   (a.aggregations : ℚ), (a.tables.length : ℚ), (a.estimated_rows : ℚ)]

/-- The deterministic stream of numpy draws reached after
`np.random.seed(42)` in `_generate_synthetic_data`, one field per call
site of the loop body, indexed by the iteration number.  The theorems
below hold for every stream, in particular for numpy's actual one; a
fixed seed fixes the stream, which is what makes the bootstrap
reproducible. -/
structure NumpyRNG where
  uniform_1_20 : Nat → ℚ
  poissonJoins : Nat → Nat
  poissonSubqueries : Nat → Nat
  poissonAggregations : Nat → Nat
  randint_1_6 : Nat → Nat
  randint_100_10000 : Nat → Nat
  normal_0_01 : Nat → ℚ

/-- `PerformancePredictor._generate_synthetic_data`: 100 samples; each
draws the six feature quantities, synthesizes the execution time by the
fixed linear formula of the source plus the Gaussian draw, and floors it
at 0.01. -/
def generate_synthetic_data (rng : NumpyRNG) : List Sample :=
  (List.range 100).map (fun i =>
    let complexity := rng.uniform_1_20 i
    let joins := rng.poissonJoins i
    let subqueries := rng.poissonSubqueries i
    let aggregations := rng.poissonAggregations i
    let tables := rng.randint_1_6 i
    let rows := rng.randint_100_10000 i
    let execution_time :=
      (1/10 : ℚ) *
        (complexity * (1/10) + (joins : ℚ) * (2/10) +
         (subqueries : ℚ) * (5/10) + (aggregations : ℚ) * (3/10) +
         (tables : ℚ) * (1/10) + ((rows : ℚ) / 1000) * (5/100)) +
      rng.normal_0_01 i
    let execution_time := max (1/100) execution_time
    { analysis :=
        { complexity_score := complexity
          joins := joins
          subqueries := subqueries
          aggregations := aggregations
          tables := (List.range tables).map (fun j => "table_".data ++ (toString j).data)
          estimated_rows := (rows : ℤ) }
      execution_time := execution_time })

/-- The state of a `PerformancePredictor` instance.  The fitted
`StandardScaler`/`RandomForestRegressor` pair is represented by the data
it was fitted on: the feature matrix `fitX` and the target vector `fitY`
(what `train` passes to `scaler.fit_transform` and `model.fit`). -/
structure PerformancePredictor where
  is_trained : Bool
  fitX : List (List ℚ)
  fitY : List ℚ

/-- `PerformancePredictor.__init__`: untrained, nothing fitted. -/
def PerformancePredictor.init : PerformancePredictor :=
  { is_trained := false, fitX := [], fitY := [] }

/-- `PerformancePredictor.train`: if fewer than 10 samples are supplied,
replace them wholesale with the synthetic set; extract the feature
vectors and targets; fit scaler and model (recorded as `fitX`/`fitY`);
mark the predictor trained. -/
def train (p : PerformancePredictor) (rng : NumpyRNG)
    (training_data : List Sample) : PerformancePredictor :=
  let data := if training_data.length < 10
              then generate_synthetic_data rng else training_data
  { p with
    is_trained := true
    fitX := data.map (fun d => extract_features d.analysis)
    fitY := data.map (fun d => d.execution_time) }

/-- The fitted behavior of the sklearn objects, abstracted as functions
of the data they were fitted on: `transform fitX v` is
`scaler.transform(v)` for the scaler fitted on `fitX`, and
`rfPredict fitX fitY w` is `model.predict(w)[0]` for the forest fitted on
the scaled features of `fitX` against `fitY`. -/
structure SklearnEnv where
  transform : List (List ℚ) → List ℚ → List ℚ
  rfPredict : List (List ℚ) → List ℚ → List ℚ → ℚ

/-- The prediction record returned by `PerformancePredictor.predict`. -/
structure Prediction where
  predicted_time : ℚ
  confidence : ℚ
  performance_category : List Char

/-- `np.var`: population variance (mean of squared deviations).  The
source applies it to the six scaled feature values. -/
def np_var (xs : List ℚ) : ℚ :=
  if xs.length = 0 then 0
  else
    let m := xs.sum / (xs.length : ℚ)
    ((xs.map (fun x => (x - m) ^ 2)).sum) / (xs.length : ℚ)

/-- `PerformancePredictor._calculate_confidence`:
`max(0.5, min(0.95, 1 - np.var(features_scaled)))`. -/
def calculate_confidence (features_scaled : List ℚ) : ℚ :=
  max (1/2) (min (19/20) (1 - np_var features_scaled))

/-- `PerformancePredictor._categorize_performance`: strict upper-bound
bands tested in increasing order, first match wins. -/
def categorize_performance (predicted_time : ℚ) : List Char :=
  if predicted_time < 1/10 then "Excellent".data
  else if predicted_time < 1/2 then "Good".data
  else if predicted_time < 2 then "Average".data
  else if predicted_time < 5 then "Slow".data
  else "Very Slow".data

/-- `PerformancePredictor.predict`: auto-train on the synthetic bootstrap
if untrained, extract and scale the features, run the model, clamp the
returned time at 0.01.  The category is computed from the raw (unclamped)
model output, as in the source.  Returns the post-call predictor state
together with the prediction record. -/
def predict (env : SklearnEnv) (rng : NumpyRNG) (p : PerformancePredictor)
    (analysis : AnalysisLike) : PerformancePredictor × Prediction :=
  let p := if p.is_trained then p else train p rng []
  let features := extract_features analysis
  let features_scaled := env.transform p.fitX features
  let predicted_time := env.rfPredict p.fitX p.fitY features_scaled
  (p,
   { predicted_time := max (1/100) predicted_time
     confidence := calculate_confidence features_scaled
     performance_category := categorize_performance predicted_time })

/-! ## The complexity formula as the specification states it -/

/-- The complexity formula exactly as the specification words it:
1.0 plus the sum over the fixed construct table of count times weight,
rounded to 2 decimal places, with the counts taken on the lower-cased
text by the stated rules (word-boundary matches for `join` and for the
aggregate alternation, the literal substring `"(select"` for `subquery`,
and the literal substring with underscores replaced by spaces for every
other construct). -/
def complexitySpec (sql : List Char) : ℚ :=
  let t := lowerStr sql
  pyRound2 (1 +
    ((countSubstr "select".data t : ℚ) * 1 +
     (countWordBound "join".data t : ℚ) * (5/2) +
     (countSubstr "where".data t : ℚ) * (6/5) +
     (countSubstr "group by".data t : ℚ) * 2 +
     (countSubstr "order by".data t : ℚ) * (3/2) +
     (countSubstr "(select".data t : ℚ) * 3 +
     (countAggBound t : ℚ) * (11/5)))

/-! ## Helper lemmas -/

/-- Unfolding of the complexity fold over the concrete weight table:
seven weighted counts added left to right.  Holds by computation. -/
theorem calculate_complexity_eval (sql : List Char) :
    calculate_complexity sql = pyRound2
      ((((((((1 : ℚ) + (countSubstr "select".data (lowerStr sql) : ℚ) * 1)
        + (countWordBound "join".data (lowerStr sql) : ℚ) * (5/2))
        + (countSubstr "where".data (lowerStr sql) : ℚ) * (6/5))
        + (countSubstr "group by".data (lowerStr sql) : ℚ) * 2)
        + (countSubstr "order by".data (lowerStr sql) : ℚ) * (3/2))
        + (countSubstr "(select".data (lowerStr sql) : ℚ) * 3)
        + (countAggBound (lowerStr sql) : ℚ) * (11/5)) := rfl

theorem pyRoundHalfEven_intCast (k : ℤ) : pyRoundHalfEven (k : ℚ) = k := by
  unfold pyRoundHalfEven
  rw [Int.floor_intCast]
  norm_num

theorem floor_le_pyRoundHalfEven (x : ℚ) : ⌊x⌋ ≤ pyRoundHalfEven x := by
  simp only [pyRoundHalfEven]
  split_ifs <;> omega

theorem pyRound2_div100 (k : ℤ) : pyRound2 ((k : ℚ) / 100) = (k : ℚ) / 100 := by
  unfold pyRound2
  rw [show (k : ℚ) / 100 * 100 = (k : ℚ) by ring, pyRoundHalfEven_intCast]

theorem one_le_pyRound2 {x : ℚ} (hx : 1 ≤ x) : 1 ≤ pyRound2 x := by
  unfold pyRound2
  have h1 : (100 : ℤ) ≤ ⌊x * 100⌋ := by
    rw [Int.le_floor]
    push_cast
    linarith
  have h2 : (100 : ℤ) ≤ pyRoundHalfEven (x * 100) :=
    le_trans h1 (floor_le_pyRoundHalfEven _)
  rw [le_div_iff₀ (by norm_num : (0:ℚ) < 100)]
  exact_mod_cast h2

theorem pyInt_intCast (k : ℤ) : pyInt (k : ℚ) = k := by
  unfold pyInt
  split_ifs with h
  · exact Int.floor_intCast k
  · rw [← Int.cast_neg, Int.floor_intCast]
    omega

theorem pyInt_1000_pyRound2 (x : ℚ) :
    ((pyInt (1000 * pyRound2 x) : ℤ) : ℚ) = 1000 * pyRound2 x := by
  unfold pyRound2
  set m := pyRoundHalfEven (x * 100) with hm
  have h : 1000 * ((m : ℚ) / 100) = ((10 * m : ℤ) : ℚ) := by
    push_cast
    ring
  rw [h, pyInt_intCast]

/-! ## Claim theorems: the analyzer's numeric fields -/

/-- C10.  For every SQL string on which `analyze_query` returns, the
`complexity_score` of the result is at least 1.0 (here proved for the
score of every statement text). -/
theorem complexity_score_ge_one (sql : List Char) :
    1 ≤ calculate_complexity sql := by
  rw [calculate_complexity_eval]
  apply one_le_pyRound2
  have h1 : (0:ℚ) ≤ (countSubstr "select".data (lowerStr sql) : ℚ) * 1 := by positivity
  have h2 : (0:ℚ) ≤ (countWordBound "join".data (lowerStr sql) : ℚ) * (5/2) := by positivity
  have h3 : (0:ℚ) ≤ (countSubstr "where".data (lowerStr sql) : ℚ) * (6/5) := by positivity
  have h4 : (0:ℚ) ≤ (countSubstr "group by".data (lowerStr sql) : ℚ) * 2 := by positivity
  have h5 : (0:ℚ) ≤ (countSubstr "order by".data (lowerStr sql) : ℚ) * (3/2) := by positivity
  have h6 : (0:ℚ) ≤ (countSubstr "(select".data (lowerStr sql) : ℚ) * 3 := by positivity
  have h7 : (0:ℚ) ≤ (countAggBound (lowerStr sql) : ℚ) * (11/5) := by positivity
  linarith

/-- C3.  For every input, the analyzer's complexity score equals the
specification's formula: 1.0 plus the weighted construct counts, rounded
to two decimal places, with counts taken on the lower-cased text by the
stated matching rules. -/
theorem calculate_complexity_eq_spec (sql : List Char) :
    calculate_complexity sql = complexitySpec sql := by
  rw [calculate_complexity_eval]
  unfold complexitySpec
  congr 1
  ring

/-! ## IEEE binary64 semantics of `_estimate_rows`

The analyzer's numbers are Python floats, i.e. IEEE-754 binary64
doubles: every arithmetic operation rounds its exact result to the
nearest double, ties to the even significand.  The exact-rational
idealization used elsewhere in this file is faithful for the bounds and
identities proved above, but not for the exact integer identity
`estimated_rows = 1000 * complexity_score`: the double product
`1000 * score` can fall just below the exact product, and `int(...)`
then truncates one short.  The definitions below model the rounding
exactly (doubles are rationals of the form `m * 2 ^ (e - 52)`), in the
normal range, which covers every value appearing here. -/

/-- Round a positive rational onto the binary64 grid of its binade
`[2 ^ e, 2 ^ (e + 1))` with `e = Int.log 2 x`: grid spacing
`2 ^ (e - 52)`, round to nearest, ties to the even significand (the
rounding IEEE-754 prescribes for every arithmetic result). -/
def binary64Pos (x : ℚ) : ℚ :=
  (pyRoundHalfEven (x / (2:ℚ) ^ (Int.log 2 x - 52)) : ℚ) *
    (2:ℚ) ^ (Int.log 2 x - 52)

/-- IEEE-754 binary64 rounding of an exact rational value, for the
normal range (no overflow or subnormals arise in the values treated
here).  This is the value Python stores for a float literal and the
rounding applied to every float operation's exact result. -/
def binary64 (x : ℚ) : ℚ :=
  if x = 0 then 0
  else if 0 < x then binary64Pos x
  else -binary64Pos (-x)

/-- Float semantics of `QueryAnalyzer._estimate_rows` at a query whose
exact complexity score is `score`: the analysis dict holds the double
nearest `score` (`binary64 score`), `base_rows` is the exact double
1000, their product rounds to the nearest double, and `int(...)`
truncates toward zero. -/
def estimate_rows_float (score : ℚ) : ℤ :=
  pyInt (binary64 ((1000 : ℚ) * binary64 score))

theorem Int_log2_eq (x : ℚ) (e : ℤ) (h0 : 0 < x)
    (h1 : (2:ℚ) ^ e ≤ x) (h2 : x < (2:ℚ) ^ (e + 1)) : Int.log 2 x = e := by
  have hb : (1:ℕ) < 2 := one_lt_two
  have hl : ((2:ℕ) : ℚ) ^ (Int.log 2 x) ≤ x := Int.zpow_log_le_self hb h0
  have hu : x < ((2:ℕ) : ℚ) ^ (Int.log 2 x + 1) := Int.lt_zpow_succ_log_self hb x
  rw [show ((2:ℕ):ℚ) = (2:ℚ) by norm_num] at hl hu
  by_contra hne
  rcases lt_or_gt_of_ne hne with hlt | hgt
  · have hle : (2:ℚ) ^ (Int.log 2 x + 1) ≤ (2:ℚ) ^ e :=
      zpow_le_zpow_right₀ (by norm_num) (by omega)
    linarith
  · have hle : (2:ℚ) ^ (e + 1) ≤ (2:ℚ) ^ (Int.log 2 x) :=
      zpow_le_zpow_right₀ (by norm_num) (by omega)
    linarith

theorem binary64_eval (x : ℚ) (e : ℤ) (h0 : 0 < x)
    (h1 : (2:ℚ) ^ e ≤ x) (h2 : x < (2:ℚ) ^ (e + 1)) :
    binary64 x =
      (pyRoundHalfEven (x / (2:ℚ) ^ (e - 52)) : ℚ) * (2:ℚ) ^ (e - 52) := by
  unfold binary64 binary64Pos
  rw [if_neg (ne_of_gt h0), if_pos h0, Int_log2_eq x e h0 h1 h2]

theorem pyRoundHalfEven_eq_of_lt (x : ℚ) (n : ℤ)
    (h1 : (n:ℚ) ≤ x) (h2 : x < (n:ℚ) + 1/2) : pyRoundHalfEven x = n := by
  have hf : ⌊x⌋ = n := by
    rw [Int.floor_eq_iff]
    refine ⟨h1, ?_⟩
    linarith
  simp only [pyRoundHalfEven]
  rw [hf, if_pos (by linarith)]

/-- The double nearest 32.3 is `4545820873877094 * 2 ^ (-47)`
(32.2999999999999971…): the exact `32.3 * 2 ^ 47` is
`4545820873877094.4`, which rounds down. -/
theorem binary64_32_3 :
    binary64 ((323:ℚ)/10) = 4545820873877094/140737488355328 := by
  rw [binary64_eval ((323:ℚ)/10) 5 (by norm_num) (by norm_num) (by norm_num)]
  rw [pyRoundHalfEven_eq_of_lt _ 4545820873877094 (by norm_num) (by norm_num)]
  norm_num

/-- Multiplying that double by 1000 exactly gives
`8878556394291199.21875 * 2 ^ (-38)`, which rounds down to
`8878556394291199 * 2 ^ (-38) = 32300 - 2 ^ (-38) < 32300`: the IEEE
product of `1000` and the double 32.3 is strictly below 32300. -/
theorem binary64_prod :
    binary64 ((1000:ℚ) * (4545820873877094/140737488355328)) =
      8878556394291199/274877906944 := by
  rw [binary64_eval _ 14 (by norm_num) (by norm_num) (by norm_num)]
  rw [pyRoundHalfEven_eq_of_lt _ 8878556394291199 (by norm_num) (by norm_num)]
  norm_num

theorem pyInt_prod : pyInt ((8878556394291199:ℚ)/274877906944) = 32299 := by
  unfold pyInt
  rw [if_pos (by norm_num), Int.floor_eq_iff]
  norm_num

/-- A query whose complexity score is exactly 32.3: twenty-four
`select` occurrences, one standalone `join` and four `where`
occurrences give `1 + 24*1.0 + 2.5 + 4*1.2 = 32.3`.  In the source's
float accumulation this lands exactly on the double nearest 32.3:
`1.0 + 24*1.0 = 25.0` and `+ 2.5 = 27.5` are exact, `4 * 1.2` scales
the double 1.2 by a power of two (exact), the sum
`27.5 + 4.79999999999999982…` rounds to `binary64 32.3`, the remaining
`+ 0.0 * w` terms leave it unchanged, and `round(score, 2)` returns the
double nearest the 2-decimal rounding 32.30, i.e. the same double. -/
def sql323 : List Char :=
  ("select select select select select select select select " ++
   "select select select select select select select select " ++
   "select select select select select select select select " ++
   "join where where where where").data

set_option maxRecDepth 100000 in
theorem complexity_sql323 : calculate_complexity sql323 = 323/10 := by
  have h : calculate_complexity sql323 = pyRound2 (323/10) := by
    rw [calculate_complexity_eval]
    congr 1
    rw [show countSubstr "select".data (lowerStr sql323) = 24 from by decide,
        show countWordBound "join".data (lowerStr sql323) = 1 from by decide,
        show countSubstr "where".data (lowerStr sql323) = 4 from by decide,
        show countSubstr "group by".data (lowerStr sql323) = 0 from by decide,
        show countSubstr "order by".data (lowerStr sql323) = 0 from by decide,
        show countSubstr "(select".data (lowerStr sql323) = 0 from by decide,
        show countAggBound (lowerStr sql323) = 0 from by decide]
    norm_num
  rw [h]
  unfold pyRound2
  rw [pyRoundHalfEven_eq_of_lt ((323:ℚ)/10 * 100) 3230 (by norm_num) (by norm_num)]
  norm_num

/-- C8, counterexample.  The query `sql323` is analyzed to complexity
score 32.3, whose exact thousandfold is the integer 32300; but under
the source's IEEE double arithmetic `int(1000 * 32.3)` evaluates to
32299, so `estimated_rows` is not the integer equal to
`1000 * complexity_score` on this input. -/
theorem estimated_rows_float_counterexample :
    calculate_complexity sql323 = 323/10 ∧
    (1000 : ℚ) * (323/10) = 32300 ∧
    estimate_rows_float (323/10) = 32299 := by
  refine ⟨complexity_sql323, by norm_num, ?_⟩
  unfold estimate_rows_float
  rw [binary64_32_3, binary64_prod, pyInt_prod]

/-- C8, amended.  `estimated_rows` is `int(1000 * complexity_score)` as
the program computes it: idealizing floats as exact rationals this
equals `1000 * complexity_score` exactly (the product is an integer, so
truncation loses nothing), but under the source's IEEE binary64
arithmetic the multiply can round just below the exact product, making
`estimated_rows` fall one short — at the reachable complexity score
32.3 it is 32299 = 1000 * 32.3 - 1. -/
theorem estimated_rows_semantics :
    (∀ sql : List Char,
      ((estimate_rows sql : ℤ) : ℚ) = 1000 * calculate_complexity sql) ∧
    ((estimate_rows_float (calculate_complexity sql323) : ℤ) : ℚ) =
      1000 * calculate_complexity sql323 - 1 := by
  constructor
  · intro sql
    unfold estimate_rows
    rw [calculate_complexity_eval]
    exact pyInt_1000_pyRound2 _
  · rw [complexity_sql323]
    unfold estimate_rows_float
    rw [binary64_32_3, binary64_prod, pyInt_prod]
    norm_num

/-! ## Claim theorems: totality and join counting -/

/-- C1, counterexample.  On the empty string `sqlparse.parse` yields no
statements, so `analyze_query("")` hits `IndexError` instead of
returning a record: the analyzer is not total on the empty string. -/
theorem analyze_query_empty_counterexample : analyze_query [] = none := rfl

/-- C1, amended.  `analyze_query` returns a `QueryAnalysis` record for
every non-empty string; on the empty string the parse yields no
statement and the subscript raises, so no record is returned. -/
theorem analyze_query_total_iff_nonempty :
    (∀ sql : List Char, sql ≠ [] → (analyze_query sql).isSome = true) ∧
    analyze_query [] = none := by
  refine ⟨?_, rfl⟩
  intro sql h
  simp [analyze_query, sqlparseFirst, h]

theorem analyze_query_total_iff_nonempty_witness :
    (analyze_query "select 1".data).isSome = true :=
  analyze_query_total_iff_nonempty.1 "select 1".data (by decide)

/-- C4, counterexample.  The text `"select joins from t"` contains one
occurrence of the substring `"joins"`, yet the analyzer's join count is
0: under the word-boundary regex `\bjoin\b` the word `joins` does not
match, contradicting the claim that such an occurrence is counted as a
join. -/
theorem count_joins_joins_counterexample :
    countSubstr "joins".data (lowerStr "select joins from t".data) = 1 ∧
    count_joins "select joins from t".data = 0 := by
  exact ⟨by decide, by decide⟩

/-- C4, amended.  The join count of the analysis equals the number of
word-boundary matches of the standalone word `join` in the lower-cased
input; under this rule an occurrence of `joins` (e.g. in a column name)
does not match and is not counted, while a standalone `join` is. -/
theorem count_joins_word_boundary :
    (∀ sql : List Char,
      (mkAnalysis sql).joins = countWordBound "join".data (lowerStr sql)) ∧
    count_joins "select joins from t".data = 0 ∧
    count_joins "select * from a join b".data = 1 := by
  exact ⟨fun sql => rfl, by decide, by decide⟩

/-! ## Claim theorems: the predictor -/

/-- C5.  The performance category is decided by strict upper bounds
tested in increasing order with first match winning, and a prediction of
exactly 0.1 seconds falls in the "Good" band, not "Excellent". -/
theorem categorize_performance_bands :
    (∀ t : ℚ,
      (t < 1/10 → categorize_performance t = "Excellent".data) ∧
      (1/10 ≤ t → t < 1/2 → categorize_performance t = "Good".data) ∧
      (1/2 ≤ t → t < 2 → categorize_performance t = "Average".data) ∧
      (2 ≤ t → t < 5 → categorize_performance t = "Slow".data) ∧
      (5 ≤ t → categorize_performance t = "Very Slow".data)) ∧
    categorize_performance (1/10) = "Good".data := by
  constructor
  · intro t
    unfold categorize_performance
    refine ⟨?_, ?_, ?_, ?_, ?_⟩ <;> intros <;> split_ifs <;> first | rfl | linarith
  · unfold categorize_performance
    norm_num

theorem categorize_performance_bands_witness :
    ((1:ℚ)/10 ≤ 3/10 ∧ (3:ℚ)/10 < 1/2) ∧
    categorize_performance (3/10) = "Good".data :=
  ⟨⟨by norm_num, by norm_num⟩,
   (categorize_performance_bands.1 (3/10)).2.1 (by norm_num) (by norm_num)⟩

/-- A concrete numpy stream, used only to instantiate universally
quantified theorems at a closed input. -/
def constRNG : NumpyRNG :=
  { uniform_1_20 := fun _ => 1
    poissonJoins := fun _ => 0
    poissonSubqueries := fun _ => 0
    poissonAggregations := fun _ => 0
    randint_1_6 := fun _ => 1
    randint_100_10000 := fun _ => 100
    normal_0_01 := fun _ => 0 }

/-- C2.  A training call with fewer than 10 samples (in particular with
none) discards the supplied samples wholesale — it behaves exactly like
`train([])` — and fits on the synthetic set of exactly 100 samples drawn
from the seeded stream; afterwards the predictor is marked trained. -/
theorem train_small_set_synthetic_bootstrap
    (rng : NumpyRNG) (p : PerformancePredictor) (samples : List Sample)
    (h : samples.length < 10) :
    train p rng samples = train p rng [] ∧
    (train p rng samples).fitX =
      (generate_synthetic_data rng).map (fun d => extract_features d.analysis) ∧
    (train p rng samples).fitY =
      (generate_synthetic_data rng).map (fun d => d.execution_time) ∧
    (generate_synthetic_data rng).length = 100 ∧
    (train p rng samples).is_trained = true := by
  unfold train
  rw [if_pos h, if_pos (by norm_num : ([] : List Sample).length < 10)]
  refine ⟨rfl, rfl, rfl, ?_, rfl⟩
  unfold generate_synthetic_data
  rw [List.length_map, List.length_range]

theorem train_small_set_synthetic_bootstrap_witness :
    ([] : List Sample).length < 10 ∧
    (train PerformancePredictor.init constRNG []).is_trained = true :=
  ⟨by norm_num,
   (train_small_set_synthetic_bootstrap constRNG PerformancePredictor.init []
     (by norm_num)).2.2.2.2⟩

/-- C6.  If `predict` is called on an untrained predictor it first runs
`train([])`, so the post-call state is exactly the synthetically
bootstrapped one; after any call the predictor is trained, and `predict`
never fails for lack of training (it is total in this embedding). -/
theorem predict_auto_trains (env : SklearnEnv) (rng : NumpyRNG)
    (p : PerformancePredictor) (a : AnalysisLike) :
    (predict env rng p a).1.is_trained = true ∧
    (p.is_trained = false → (predict env rng p a).1 = train p rng []) ∧
    (p.is_trained = true → (predict env rng p a).1 = p) := by
  unfold predict
  cases hp : p.is_trained <;> simp [hp, train]

/-- A trivial fitted-library behavior, used only to instantiate
universally quantified theorems at a closed input. -/
def idEnv : SklearnEnv :=
  { transform := fun _ v => v, rfPredict := fun _ _ _ => 0 }

/-- An analysis record with all-default feature values, used only to
instantiate universally quantified theorems at a closed input. -/
def emptyAnalysis : AnalysisLike :=
  { complexity_score := 1
    joins := 0
    subqueries := 0
    aggregations := 0
    tables := []
    estimated_rows := 1000 }

theorem predict_auto_trains_witness :
    PerformancePredictor.init.is_trained = false ∧
    (predict idEnv constRNG PerformancePredictor.init emptyAnalysis).1 =
      train PerformancePredictor.init constRNG [] :=
  ⟨rfl,
   (predict_auto_trains idEnv constRNG PerformancePredictor.init
     emptyAnalysis).2.1 rfl⟩

/-- C9.  Every prediction has `predicted_time` at least 0.01 and
`confidence` in the closed interval [0.5, 0.95], the confidence being
1 minus the variance of the scaled feature vector clamped to that
interval. -/
theorem predict_output_clamped (env : SklearnEnv) (rng : NumpyRNG)
    (p : PerformancePredictor) (a : AnalysisLike) :
    1/100 ≤ (predict env rng p a).2.predicted_time ∧
    1/2 ≤ (predict env rng p a).2.confidence ∧
    (predict env rng p a).2.confidence ≤ 19/20 ∧
    (predict env rng p a).2.confidence =
      max (1/2) (min (19/20)
        (1 - np_var (env.transform
          (if p.is_trained then p else train p rng []).fitX
          (extract_features a)))) := by
  unfold predict calculate_confidence
  dsimp only
  refine ⟨le_max_left _ _, le_max_left _ _, ?_, rfl⟩
  exact max_le (by norm_num) (min_le_left _ _)

/-! ## Claim theorems: suggestion generation -/

theorem sugJoins_mem_iff (a : QueryAnalysis) :
    sugJoins ∈ generate_suggestions a ↔ 3 < a.joins := by
  unfold generate_suggestions
  split_ifs <;>
    first
      | exact iff_of_true (by decide) ‹3 < a.joins›
      | exact iff_of_false (by decide) ‹¬ 3 < a.joins›

theorem sugSubqueries_mem_iff (a : QueryAnalysis) :
    sugSubqueries ∈ generate_suggestions a ↔ 2 < a.subqueries := by
  unfold generate_suggestions
  split_ifs <;>
    first
      | exact iff_of_true (by decide) ‹2 < a.subqueries›
      | exact iff_of_false (by decide) ‹¬ 2 < a.subqueries›

theorem sugComplexity_mem_iff (a : QueryAnalysis) :
    sugComplexity ∈ generate_suggestions a ↔ 10 < a.complexity_score := by
  unfold generate_suggestions
  split_ifs <;>
    first
      | exact iff_of_true (by decide) ‹10 < a.complexity_score›
      | exact iff_of_false (by decide) ‹¬ 10 < a.complexity_score›

theorem sugGroupBy_mem_iff (a : QueryAnalysis) :
    sugGroupBy ∈ generate_suggestions a ↔
      0 < a.aggregations ∧ "GROUP BY".data ∉ a.operations := by
  unfold generate_suggestions
  split_ifs <;>
    first
      | exact iff_of_true (by decide)
          ‹0 < a.aggregations ∧ "GROUP BY".data ∉ a.operations›
      | exact iff_of_false (by decide)
          ‹¬ (0 < a.aggregations ∧ "GROUP BY".data ∉ a.operations)›

theorem generate_suggestions_sublist (a : QueryAnalysis) :
    List.Sublist (generate_suggestions a)
      [sugJoins, sugSubqueries, sugComplexity, sugGroupBy] := by
  unfold generate_suggestions
  split_ifs <;> decide

/-- The four-way-join example statement from the specification. -/
def bigJoinSql : List Char :=
  ("SELECT * FROM a JOIN b ON a.id=b.a_id JOIN c ON b.id=c.b_id " ++
   "JOIN d ON c.id=d.c_id JOIN e ON d.id=e.d_id").data

/-- The aggregate-without-GROUP-BY example statement from the
specification. -/
def countOrdersSql : List Char := "SELECT COUNT(*) FROM orders".data

/-- C7.  Suggestion generation applies exactly the four independent
rules, in the fixed order (the output is always a sublist of the fixed
four-element list, and each suggestion is present exactly when its
threshold condition holds); the four-way-join example yields joins = 4
and triggers the complex-joins suggestion, and the aggregate example
triggers the add-GROUP-BY suggestion. -/
theorem generate_suggestions_rules :
    (∀ a : QueryAnalysis,
      List.Sublist (generate_suggestions a)
        [sugJoins, sugSubqueries, sugComplexity, sugGroupBy] ∧
      (sugJoins ∈ generate_suggestions a ↔ 3 < a.joins) ∧
      (sugSubqueries ∈ generate_suggestions a ↔ 2 < a.subqueries) ∧
      (sugComplexity ∈ generate_suggestions a ↔ 10 < a.complexity_score) ∧
      (sugGroupBy ∈ generate_suggestions a ↔
        0 < a.aggregations ∧ "GROUP BY".data ∉ a.operations)) ∧
    (analyze_query bigJoinSql = some (mkAnalysis bigJoinSql) ∧
     (mkAnalysis bigJoinSql).joins = 4 ∧
     sugJoins ∈ (mkAnalysis bigJoinSql).optimization_suggestions) ∧
    (analyze_query countOrdersSql = some (mkAnalysis countOrdersSql) ∧
     (mkAnalysis countOrdersSql).aggregations = 1 ∧
     "GROUP BY".data ∉ (mkAnalysis countOrdersSql).operations ∧
     sugGroupBy ∈ (mkAnalysis countOrdersSql).optimization_suggestions) := by
  refine ⟨fun a => ⟨generate_suggestions_sublist a, sugJoins_mem_iff a,
    sugSubqueries_mem_iff a, sugComplexity_mem_iff a, sugGroupBy_mem_iff a⟩,
    ⟨rfl, by decide, ?_⟩, ⟨rfl, by decide, by decide, ?_⟩⟩
  · exact (sugJoins_mem_iff (analysisBase bigJoinSql)).mpr (by decide)
  · exact (sugGroupBy_mem_iff (analysisBase countOrdersSql)).mpr (by decide)

theorem generate_suggestions_rules_witness :
    3 < (analysisBase bigJoinSql).joins ∧
    sugJoins ∈ generate_suggestions (analysisBase bigJoinSql) :=
  ⟨by decide,
   ((generate_suggestions_rules.1 (analysisBase bigJoinSql)).2.1).mpr (by decide)⟩
